import Mathlib

/-!
Verification of the salon-booking data layer.

The definitions below are a shallow embedding of the repository's three
JavaScript modules:
* the Cloudinary image-upload helper (`uploadImageToCloudinary`),
* the Firestore data-access layer (`createBooking`, `getUserBookings`,
  `getBarberBookings`, `updateBookingStatus`, `getNearbySaloons`).

Modelling conventions:
* Firestore `Timestamp` / JS `Date` values are epoch milliseconds (`Int`);
  `duration` is in minutes, exactly as in the source
  (`end = start.getTime() + duration * 60000`).
* The committed `bookings` collection is a `List Booking`.  A write appends;
  Firestore document ids are `String`s.
* A Firestore query with only `where` clauses returns its results in
  Firestore's default order, ascending by document id; the source never adds
  an `orderBy` clause, so the embedding sorts query results by `id`.
* The source's `createBooking` runs inside `runTransaction` but performs its
  read with the plain `getDocs` query API, not with `transaction.get`; the
  Firestore web SDK validates (and retries on) only documents read through
  `transaction.get`, so that read is an ordinary read of the committed state
  at the moment it executes and the transaction's validated read set is
  empty.  `runConcurrentPair` below models one interleaving of two such
  transactions under exactly these semantics.
-/

namespace SaloonApp

/-- Equality of `Except` results is decidable when both payloads have
decidable equality; used to evaluate concrete runs of the data layer. -/
instance {ε α : Type} [DecidableEq ε] [DecidableEq α] : DecidableEq (Except ε α) :=
  fun a b =>
    match a, b with
    | .ok x, .ok y =>
        decidable_of_iff (x = y) ⟨fun h => h ▸ rfl, fun h => by injection h⟩
    | .error e, .error f =>
        decidable_of_iff (e = f) ⟨fun h => h ▸ rfl, fun h => by injection h⟩
    | .ok _, .error _ => .isFalse (fun h => Except.noConfusion h)
    | .error _, .ok _ => .isFalse (fun h => Except.noConfusion h)

/-- A document of the `bookings` collection, with the fields the data layer
reads or writes: `bookingTime` is epoch milliseconds, `duration` minutes. -/
structure Booking where
  id : String
  barberId : String
  userId : String
  bookingTime : Int
  duration : Int
  status : String
  createdAt : Int
deriving Repr, DecidableEq

/-- The `bookingData` argument of `createBooking`: the fields the function
inspects (`barberId`, `bookingTime`, `duration`) plus the payload fields it
stores verbatim. -/
structure BookingRequest where
  barberId : String
  userId : String
  bookingTime : Int
  duration : Int
  status : String
deriving Repr, DecidableEq

/-- `new Date(start.getTime() + duration * 60000)` from the source. -/
def bookingEndMs (startMs duration : Int) : Int := startMs + duration * 60000

/-- The overlap test of `createBooking`:
`bookingStart < existingEnd && bookingEnd > existingStart`. -/
def conflictsWith (req : BookingRequest) (b : Booking) : Bool :=
  decide (req.bookingTime < bookingEndMs b.bookingTime b.duration) &&
  decide (bookingEndMs req.bookingTime req.duration > b.bookingTime)

/-- The message of the `Error` thrown by `createBooking` on a conflict. -/
def conflictMsg : String :=
  "This time slot is no longer available. Please select another time."

/-- The read `query(bookingsRef, where('barberId', '==', barberId))`:
all bookings of the requested barber, with no condition on `status`. -/
def barberScopedRead (store : List Booking) (barberId : String) : List Booking :=
  store.filter (fun b => b.barberId == barberId)

/-- The conflict loop of `createBooking`: whether any booking returned by
the barber-scoped query overlaps the requested interval. -/
def hasConflict (store : List Booking) (req : BookingRequest) : Bool :=
  (barberScopedRead store req.barberId).any (conflictsWith req)

/-- `createBooking` from the data layer, run against a committed store with
no concurrent writer: read the barber's bookings, throw `conflictMsg` if any
overlaps, otherwise commit one new document (`newId` models the fresh
document reference, `now` models `Timestamp.now()`).  Returns the result
together with the committed store after the transaction. -/
def createBooking (store : List Booking) (req : BookingRequest)
    (newId : String) (now : Int) : Except String String × List Booking :=
  if hasConflict store req then
    (.error conflictMsg, store)
  else
    (.ok newId,
      store ++ [{ id := newId, barberId := req.barberId, userId := req.userId,
                  bookingTime := req.bookingTime, duration := req.duration,
                  status := req.status, createdAt := now }])

/-- One `createBooking` transaction body evaluated against the snapshot its
`getDocs` call observed: either the thrown conflict error, or the document
buffered by `transaction.set`. -/
def txnAttempt (snapshot : List Booking) (req : BookingRequest)
    (newId : String) (now : Int) : Except String Booking :=
  if hasConflict snapshot req then
    .error conflictMsg
  else
    .ok { id := newId, barberId := req.barberId, userId := req.userId,
          bookingTime := req.bookingTime, duration := req.duration,
          status := req.status, createdAt := now }

/-- Two concurrent `createBooking` calls, interleaved so that both `getDocs`
reads run before either transaction commits.  Because the source reads with
`getDocs` instead of `transaction.get`, neither read is in its transaction's
validated read set, and the two `transaction.set` writes target distinct
fresh document references, so Firestore commits every attempt that did not
throw: no retry or abort occurs. -/
def runConcurrentPair (store : List Booking) (r1 r2 : BookingRequest)
    (id1 id2 : String) (now : Int) :
    Except String String × Except String String × List Booking :=
  match txnAttempt store r1 id1 now, txnAttempt store r2 id2 now with
  | .ok b1, .ok b2 => (.ok b1.id, .ok b2.id, store ++ [b1, b2])
  | .ok b1, .error e2 => (.ok b1.id, .error e2, store ++ [b1])
  | .error e1, .ok b2 => (.error e1, .ok b2.id, store ++ [b2])
  | .error e1, .error e2 => (.error e1, .error e2, store)

/-- The conflict predicate, characterised as an existential over the store. -/
theorem hasConflict_iff (store : List Booking) (req : BookingRequest) :
    hasConflict store req = true ↔
      ∃ b ∈ store, b.barberId = req.barberId ∧
        req.bookingTime < bookingEndMs b.bookingTime b.duration ∧
        bookingEndMs req.bookingTime req.duration > b.bookingTime := by
  unfold hasConflict barberScopedRead conflictsWith
  simp only [List.any_eq_true, List.mem_filter, Bool.and_eq_true,
    decide_eq_true_eq, beq_iff_eq]
  constructor
  · rintro ⟨b, ⟨hb, hbar⟩, h1, h2⟩; exact ⟨b, hb, hbar, h1, h2⟩
  · rintro ⟨b, hb, hbar, h1, h2⟩; exact ⟨b, ⟨hb, hbar⟩, h1, h2⟩

/-- Shared characterisation of the conflict branch of `createBooking`. -/
theorem createBooking_error_iff_aux (store : List Booking) (req : BookingRequest)
    (newId : String) (now : Int) :
    (createBooking store req newId now).1 = .error conflictMsg ↔
      ∃ b ∈ store, b.barberId = req.barberId ∧
        req.bookingTime < bookingEndMs b.bookingTime b.duration ∧
        bookingEndMs req.bookingTime req.duration > b.bookingTime := by
  rw [← hasConflict_iff]
  cases h : hasConflict store req with
  | true => simp [createBooking, h]
  | false => simp [createBooking, h]

/-- C1: `createBooking` detects a conflict exactly when the requested
half-open interval overlaps an existing booking of the same barber:
`start < existing.end AND end > existing.start`; in particular back-to-back
requests succeed while identical or partially overlapping intervals fail. -/
theorem createBooking_conflict_iff (store : List Booking) (req : BookingRequest)
    (newId : String) (now : Int) :
    (createBooking store req newId now).1 = .error conflictMsg ↔
      ∃ b ∈ store, b.barberId = req.barberId ∧
        req.bookingTime < bookingEndMs b.bookingTime b.duration ∧
        bookingEndMs req.bookingTime req.duration > b.bookingTime :=
  createBooking_error_iff_aux store req newId now

/-- C2 counterexample: the barber-scoped query has no condition on `status`
and the conflict loop never reads it, so a `cancelled` booking still blocks
an overlapping request — the claim says it must succeed. -/
theorem cancelled_booking_blocks_overlap :
    (createBooking [⟨"b1", "barber1", "u1", 0, 30, "cancelled", 0⟩]
      ⟨"barber1", "u2", 0, 30, "pending"⟩ "n1" 5).1 = .error conflictMsg := by
  decide

/-- C2 amended: every booking of the same barber is tested for overlap
regardless of its `status` field; in particular a `cancelled` (or
`completed`) booking whose interval overlaps the request still causes
`createBooking` to fail, so cancelling does not free the interval. -/
theorem createBooking_status_blind (store : List Booking) (req : BookingRequest)
    (newId : String) (now : Int) (b : Booking) (hb : b ∈ store)
    (hbar : b.barberId = req.barberId)
    (h1 : req.bookingTime < bookingEndMs b.bookingTime b.duration)
    (h2 : bookingEndMs req.bookingTime req.duration > b.bookingTime) :
    (createBooking store req newId now).1 = .error conflictMsg :=
  (createBooking_error_iff_aux store req newId now).mpr ⟨b, hb, hbar, h1, h2⟩

/-- Witness for `createBooking_status_blind` at a cancelled existing booking. -/
theorem createBooking_status_blind_witness :
    (createBooking [⟨"e1", "barberZ", "u9", 1000, 60, "cancelled", 2⟩]
      ⟨"barberZ", "u10", 2000, 15, "pending"⟩ "n2" 7).1 = .error conflictMsg :=
  createBooking_status_blind _ _ _ _
    ⟨"e1", "barberZ", "u9", 1000, 60, "cancelled", 2⟩
    (List.mem_singleton.mpr rfl) rfl (by decide) (by decide)

/-- The identical overlapping request used by both concurrent calls in the
double-commit scenario. -/
def concReq : BookingRequest := ⟨"barber1", "user1", 0, 30, "pending"⟩

/-- C3: evaluating the code at the failing input.  Two concurrent
`createBooking` calls with identical intervals for the same barber, with
both `getDocs` reads executing before either commit, BOTH return success,
and the committed store then holds two bookings for the same barber whose
half-open intervals overlap — the claim requires exactly one success. -/
theorem concurrent_double_commit :
    (runConcurrentPair [] concReq concReq "docA" "docB" 0).1 = .ok "docA" ∧
    (runConcurrentPair [] concReq concReq "docA" "docB" 0).2.1 = .ok "docB" ∧
    ∃ b1 ∈ (runConcurrentPair [] concReq concReq "docA" "docB" 0).2.2,
      ∃ b2 ∈ (runConcurrentPair [] concReq concReq "docA" "docB" 0).2.2,
        b1.id ≠ b2.id ∧ b1.barberId = b2.barberId ∧
        b1.bookingTime < bookingEndMs b2.bookingTime b2.duration ∧
        bookingEndMs b1.bookingTime b1.duration > b2.bookingTime := by
  decide

/-- A store whose only booking (id `bookA`, interval starting at 0 lasting
30 minutes) collides with `collideReq`. -/
def collideStoreA : List Booking := [⟨"bookA", "barber1", "u1", 0, 30, "pending", 0⟩]

/-- A store whose only booking (id `bookB`, a different interval) also
collides with `collideReq`. -/
def collideStoreB : List Booking := [⟨"bookB", "barber1", "u1", 600000, 100, "pending", 0⟩]

/-- A request overlapping the single booking of both stores above. -/
def collideReq : BookingRequest := ⟨"barber1", "u2", 0, 30, "pending"⟩

/-- C4 counterexample: the error thrown on conflict is one fixed message.
Two stores whose colliding bookings have different ids and different
intervals produce the very same error value, so the error cannot carry the
colliding reservation's id or interval as the claim states. -/
theorem conflict_error_carries_no_details :
    (createBooking collideStoreA collideReq "n3" 1).1 = .error conflictMsg ∧
    (createBooking collideStoreB collideReq "n3" 1).1 = .error conflictMsg ∧
    (createBooking collideStoreA collideReq "n3" 1).1 =
      (createBooking collideStoreB collideReq "n3" 1).1 ∧
    collideStoreA ≠ collideStoreB := by
  decide

/-- C4 amended: on conflict `createBooking` fails with an error carrying
only the fixed message `conflictMsg` (no colliding id or interval) and the
store is unchanged; every error equals that message; on success exactly one
new record, bearing the fresh document id, is appended. -/
theorem createBooking_persistence (store : List Booking) (req : BookingRequest)
    (newId : String) (now : Int) :
    ((createBooking store req newId now).1 = .error conflictMsg →
      (createBooking store req newId now).2 = store) ∧
    (∀ e, (createBooking store req newId now).1 = .error e → e = conflictMsg) ∧
    (∀ x, (createBooking store req newId now).1 = .ok x →
      ∃ b, b.id = newId ∧ (createBooking store req newId now).2 = store ++ [b]) := by
  cases h : hasConflict store req with
  | true =>
      refine ⟨fun _ => ?_, fun e he => ?_, fun x hx => ?_⟩
      · simp [createBooking, h]
      · simp [createBooking, h] at he
        exact he.symm
      · exact absurd hx (by simp [createBooking, h])
  | false =>
      refine ⟨fun hcontra => absurd hcontra (by simp [createBooking, h]),
        fun e he => absurd he (by simp [createBooking, h]), fun x _ => ?_⟩
      exact ⟨{ id := newId, barberId := req.barberId, userId := req.userId,
               bookingTime := req.bookingTime, duration := req.duration,
               status := req.status, createdAt := now },
             rfl, by simp [createBooking, h]⟩

/-- Witness for `createBooking_persistence`: on an empty store the success
branch appends exactly one record carrying the fresh document id. -/
theorem createBooking_persistence_witness :
    ∃ b, b.id = "w4" ∧
      (createBooking [] ⟨"bX", "uX", 0, 30, "pending"⟩ "w4" 3).2 = [] ++ [b] :=
  (createBooking_persistence [] ⟨"bX", "uX", 0, 30, "pending"⟩ "w4" 3).2.2 "w4" (by decide)

/-- C5: the conflict check is resource-scoped — a booking of a different
barber never affects the outcome of `createBooking`, so identical intervals
on different barbers both succeed. -/
theorem createBooking_resource_scoped (b : Booking) (store : List Booking)
    (req : BookingRequest) (newId : String) (now : Int)
    (h : b.barberId ≠ req.barberId) :
    (createBooking (b :: store) req newId now).1 =
      (createBooking store req newId now).1 := by
  have hb : (b.barberId == req.barberId) = false := beq_eq_false_iff_ne.mpr h
  have hc : hasConflict (b :: store) req = hasConflict store req := by
    unfold hasConflict barberScopedRead
    simp [List.filter_cons, hb]
  cases h2 : hasConflict store req <;> simp [createBooking, hc, h2]

/-- Witness for `createBooking_resource_scoped`: with an interval identical
to the one already booked for `barber2`, a request for `barber1` behaves as
on the empty store — it succeeds. -/
theorem createBooking_resource_scoped_witness :
    (createBooking [⟨"o1", "barber2", "u1", 0, 30, "pending", 0⟩]
      ⟨"barber1", "u2", 0, 30, "pending"⟩ "n5" 4).1 =
      (createBooking [] ⟨"barber1", "u2", 0, 30, "pending"⟩ "n5" 4).1 :=
  createBooking_resource_scoped ⟨"o1", "barber2", "u1", 0, 30, "pending", 0⟩ []
    ⟨"barber1", "u2", 0, 30, "pending"⟩ "n5" 4 (by decide)

/-- C6 counterexample: a request with non-positive duration and empty
`barberId`, `userId` is not rejected — `createBooking` has no validation
path, so it succeeds and persists a record, where the claim demands a
fast `ValidationError` with no store interaction. -/
theorem invalid_input_not_rejected :
    (createBooking [] ⟨"", "", 0, -5, ""⟩ "n6" 0).1 = .ok "n6" ∧
    (createBooking [] ⟨"", "", 0, -5, ""⟩ "n6" 0).2 ≠ [] := by
  decide

/-- C6 amended: `createBooking` performs no input validation — even when the
duration is non-positive and the identifiers are empty, the outcome is
decided solely by the overlap check against the barber-scoped read. -/
theorem createBooking_no_validation (store : List Booking) (req : BookingRequest)
    (newId : String) (now : Int) (_hdur : req.duration ≤ 0)
    (_hbid : req.barberId = "") (_huid : req.userId = "") :
    ((createBooking store req newId now).1 = .error conflictMsg ↔
      ∃ b ∈ store, b.barberId = req.barberId ∧
        req.bookingTime < bookingEndMs b.bookingTime b.duration ∧
        bookingEndMs req.bookingTime req.duration > b.bookingTime) :=
  createBooking_error_iff_aux store req newId now

/-- Witness for `createBooking_no_validation` at a concrete malformed
request on the empty store. -/
theorem createBooking_no_validation_witness :
    ((createBooking [] ⟨"", "", 0, -5, "s"⟩ "n7" 1).1 = .error conflictMsg ↔
      ∃ b ∈ ([] : List Booking), b.barberId = ("" : String) ∧
        (0 : Int) < bookingEndMs b.bookingTime b.duration ∧
        bookingEndMs 0 (-5) > b.bookingTime) :=
  createBooking_no_validation [] ⟨"", "", 0, -5, "s"⟩ "n7" 1 (by decide) rfl rfl

/-- `updateBookingStatus` from `api.js`:
`updateDoc(doc(db, 'bookings', bookingId), { status: newStatus })`.
`updateDoc` rejects when the document does not exist; otherwise it
overwrites the `status` field with the given value, whatever the previous
status was — the source performs no transition check. -/
def updateBookingStatus (store : List Booking) (bookingId newStatus : String) :
    Except String (List Booking) :=
  if store.any (fun b => b.id == bookingId) then
    .ok (store.map (fun b =>
      if b.id == bookingId then { b with status := newStatus } else b))
  else
    .error "not-found"

/-- C7 counterexample: `cancelled` is claimed terminal, yet
`updateBookingStatus` moves a cancelled booking to `completed` and succeeds
where the claim requires an `InvalidTransitionError`. -/
theorem terminal_transition_not_rejected :
    updateBookingStatus [⟨"X", "barber1", "u1", 0, 30, "cancelled", 0⟩]
        "X" "completed" =
      .ok [⟨"X", "barber1", "u1", 0, 30, "completed", 0⟩] := by
  decide

/-- C7 amended: `updateBookingStatus` sets the status of an existing booking
to any requested value unconditionally — no transition is ever rejected;
only a missing document id fails. -/
theorem updateBookingStatus_unconditional (store : List Booking)
    (bookingId newStatus : String) (b : Booking) (hb : b ∈ store)
    (hid : b.id = bookingId) :
    ∃ l, updateBookingStatus store bookingId newStatus = .ok l ∧
      { b with status := newStatus } ∈ l := by
  have hany : store.any (fun x => x.id == bookingId) = true :=
    List.any_eq_true.mpr ⟨b, hb, by simp [hid]⟩
  refine ⟨store.map (fun x =>
      if x.id == bookingId then { x with status := newStatus } else x),
    by simp [updateBookingStatus, hany], ?_⟩
  have hbeq : { b with status := newStatus } =
      (fun x => if x.id == bookingId then { x with status := newStatus } else x) b := by
    simp [hid]
  rw [hbeq]
  exact List.mem_map_of_mem _ hb

/-- Witness for `updateBookingStatus_unconditional`: even the
`completed -> pending` transition (outside every allowed transition of the
claim) succeeds. -/
theorem updateBookingStatus_unconditional_witness :
    ∃ l, updateBookingStatus [⟨"Y", "barberQ", "u3", 5, 45, "completed", 1⟩]
        "Y" "pending" = .ok l ∧
      (⟨"Y", "barberQ", "u3", 5, 45, "pending", 1⟩ : Booking) ∈ l :=
  updateBookingStatus_unconditional _ "Y" "pending"
    ⟨"Y", "barberQ", "u3", 5, 45, "completed", 1⟩
    (List.mem_singleton.mpr rfl) rfl

/-- Lexicographic order on character lists, comparing code points; the
order Firestore uses on document ids. -/
def charListLe : List Char → List Char → Bool
  | [], _ => true
  | _ :: _, [] => false
  | a :: as, b :: bs =>
      decide (a.toNat < b.toNat) ||
        (decide (a.toNat = b.toNat) && charListLe as bs)

theorem charListLe_total : ∀ x y, charListLe x y = true ∨ charListLe y x = true
  | [], _ => .inl rfl
  | _ :: _, [] => .inr rfl
  | a :: as, b :: bs => by
      simp only [charListLe, Bool.or_eq_true, Bool.and_eq_true, decide_eq_true_eq]
      rcases Nat.lt_trichotomy a.toNat b.toNat with h | h | h
      · exact .inl (.inl h)
      · rcases charListLe_total as bs with ih | ih
        · exact .inl (.inr ⟨h, ih⟩)
        · exact .inr (.inr ⟨h.symm, ih⟩)
      · exact .inr (.inl h)

theorem charListLe_trans : ∀ x y z, charListLe x y = true →
    charListLe y z = true → charListLe x z = true
  | [], _, _, _, _ => rfl
  | _ :: _, [], _, h, _ => by simp [charListLe] at h
  | _ :: _, _ :: _, [], _, h => by simp [charListLe] at h
  | a :: as, b :: bs, c :: cs, h1, h2 => by
      simp only [charListLe, Bool.or_eq_true, Bool.and_eq_true,
        decide_eq_true_eq] at h1 h2 ⊢
      rcases h1 with h1 | ⟨h1e, h1r⟩
      · rcases h2 with h2 | ⟨h2e, _⟩
        · exact .inl (by omega)
        · exact .inl (by omega)
      · rcases h2 with h2 | ⟨h2e, h2r⟩
        · exact .inl (by omega)
        · exact .inr ⟨by omega, charListLe_trans as bs cs h1r h2r⟩

/-- Lexicographic order on strings, the Firestore document-id order. -/
def strLe (a b : String) : Bool := charListLe a.data b.data

/-- Firestore's default result order for a query that has only `where`
clauses and no `orderBy`: ascending by document id. -/
def docIdLe (a b : Booking) : Prop := strLe a.id b.id = true

instance : DecidableRel docIdLe :=
  fun a b => inferInstanceAs (Decidable (strLe a.id b.id = true))

instance : IsTotal Booking docIdLe :=
  ⟨fun a b => charListLe_total a.id.data b.id.data⟩

instance : IsTrans Booking docIdLe :=
  ⟨fun a b c => charListLe_trans a.id.data b.id.data c.id.data⟩

/-- A `getDocs(query(bookingsRef, where(...)))` read: the matching documents
of the committed store, in Firestore's default document-id order. -/
def firestoreQuery (store : List Booking) (p : Booking → Bool) : List Booking :=
  List.insertionSort docIdLe (store.filter p)

/-- `getUserBookings`: `query(bookingsRef, where('userId', '==', userId))`. -/
def getUserBookings (store : List Booking) (userId : String) : List Booking :=
  firestoreQuery store (fun b => b.userId == userId)

/-- `getBarberBookings`: `query(bookingsRef, where('barberId', '==', barberId))`. -/
def getBarberBookings (store : List Booking) (barberId : String) : List Booking :=
  firestoreQuery store (fun b => b.barberId == barberId)

/-- A store of two bookings of the same user whose document-id order (the
order the queries return) is opposite to their `createdAt` order. -/
def unsortedDemoStore : List Booking :=
  [⟨"idB", "barber1", "u1", 0, 30, "pending", 10⟩,
   ⟨"idA", "barber1", "u1", 3600000, 30, "pending", 20⟩]

/-- C8 counterexample: neither list function adds an `orderBy`, so results
come back in document-id order; here that order is `createdAt = [20, 10]`,
which is not ascending as the claim requires. -/
theorem listings_not_sorted_by_createdAt :
    (getUserBookings unsortedDemoStore "u1").map Booking.createdAt = [20, 10] ∧
    ¬ List.Sorted (fun a b => a ≤ b)
        ((getUserBookings unsortedDemoStore "u1").map Booking.createdAt) := by
  constructor
  · decide
  · decide

/-- C8 amended: `getUserBookings` and `getBarberBookings` each return a
finite snapshot holding exactly the matching bookings, ordered ascending by
document id (Firestore's default), not by `createdAt`. -/
theorem listings_snapshot_spec (store : List Booking) (uid bid : String) :
    (∀ b, b ∈ getUserBookings store uid ↔ b ∈ store ∧ b.userId = uid) ∧
    (∀ b, b ∈ getBarberBookings store bid ↔ b ∈ store ∧ b.barberId = bid) ∧
    List.Sorted docIdLe (getUserBookings store uid) ∧
    List.Sorted docIdLe (getBarberBookings store bid) := by
  refine ⟨fun b => ?_, fun b => ?_, ?_, ?_⟩
  · simp [getUserBookings, firestoreQuery, List.mem_filter]
  · simp [getBarberBookings, firestoreQuery, List.mem_filter]
  · exact List.sorted_insertionSort docIdLe _
  · exact List.sorted_insertionSort docIdLe _

/-- A document of the `saloons` collection, as far as `getNearbySaloons`
reads it: the `location.latitude` / `location.longitude` fields (scaled
integers in this embedding). -/
structure Saloon where
  id : String
  latitude : Int
  longitude : Int
deriving Repr, DecidableEq

/-- `getNearbySaloons`, parameterised by geofire's `distanceBetween`
(kilometres, an exact-number model of the library routine) and by the
snapshots the geohash-bound queries produced (one candidate list per
bound).  It collects every candidate document and keeps exactly those whose
computed distance in metres (`distanceBetween(...) * 1000`) is within
`radiusInM`. -/
def getNearbySaloons (distanceBetween : Int × Int → Int × Int → Int)
    (center : Int × Int) (radiusInM : Int) (snapshots : List (List Saloon)) :
    List Saloon :=
  snapshots.flatten.filter
    (fun s => decide (distanceBetween (s.latitude, s.longitude) center * 1000 ≤ radiusInM))

/-- C9: every saloon returned by `getNearbySaloons` lies within `radiusInM`
metres of the center — candidates of the bounding-box queries whose computed
distance exceeds the radius are filtered out. -/
theorem getNearbySaloons_within_radius
    (distanceBetween : Int × Int → Int × Int → Int) (center : Int × Int)
    (radiusInM : Int) (snapshots : List (List Saloon)) (s : Saloon)
    (hs : s ∈ getNearbySaloons distanceBetween center radiusInM snapshots) :
    distanceBetween (s.latitude, s.longitude) center * 1000 ≤ radiusInM :=
  of_decide_eq_true (List.mem_filter.mp hs).2

/-- Witness for `getNearbySaloons_within_radius` with a one-candidate
snapshot at distance 1 km inside a 2000 m radius. -/
theorem getNearbySaloons_within_radius_witness :
    (1 : Int) * 1000 ≤ 2000 :=
  getNearbySaloons_within_radius (fun _ _ => 1) (0, 0) 2000 [[⟨"s1", 0, 0⟩]]
    ⟨"s1", 0, 0⟩ (by decide)

/-- The Cloudinary JSON body, as far as the upload helper reads it: the
optional `secure_url` field. -/
structure CloudinaryResponse where
  secureUrl : Option String
deriving Repr, DecidableEq

/-- `uploadImageToCloudinary`: the argument models the combined outcome of
`fetch` and `response.json()` inside the `try` block (`.error` when either
throws).  The `catch` turns any thrown error into `null`; a response without
a `secure_url` also yields `null`; otherwise the secure URL is returned. -/
def uploadImageToCloudinary (fetchAndParse : Except String CloudinaryResponse) :
    Option String :=
  match fetchAndParse with
  | .ok data =>
      match data.secureUrl with
      | some url => some url
      | none => none
  | .error _ => none

/-- C10: `uploadImageToCloudinary` never propagates an error — its result is
always a plain value: `none` whenever `fetch`/`json` threw, and the
response's `secure_url` (or `none` when absent) otherwise. -/
theorem uploadImageToCloudinary_total (r : Except String CloudinaryResponse) :
    (∀ e, r = .error e → uploadImageToCloudinary r = none) ∧
    (∀ d, r = .ok d → uploadImageToCloudinary r = d.secureUrl) := by
  constructor
  · rintro e rfl
    rfl
  · rintro d rfl
    cases h : d.secureUrl <;> simp [uploadImageToCloudinary, h]

/-- Witness for `uploadImageToCloudinary_total`: a network failure yields
`null`, not a raised error. -/
theorem uploadImageToCloudinary_total_witness :
    uploadImageToCloudinary (.error "network down") = none :=
  (uploadImageToCloudinary_total (.error "network down")).1 "network down" rfl

end SaloonApp
